import Mathlib

/-!
Verification of the cpp-logger log-aggregation service.

The C++ source (src/src/server.cpp, src/src/client.cpp, src/src/logserver.hpp,
src/loglevel.hpp) is shallowly embedded below.  Bytes are modelled as `Char`
(all wire data is 8-bit; the NUL byte is `Char.ofNat 0`), C strings as
`List Char`, and the per-connection byte stream as the list of chunks
successively returned by `read` (each chunk is the non-empty byte block of one
successful `read` call; the list ends when the peer closes the connection).
-/

/-- Value of `LINE_MAX` from `<climits>` (glibc: 2048): size of the read
buffer `char buf[LINE_MAX]` in `Logger::start`.  Each `read` call reads at
most `LINE_MAX - 1` bytes. -/
def LINE_MAX : Nat := 2048

/-- The NUL byte `'\0'`. -/
def nulChar : Char := Char.ofNat 0

/-- The ASCII escape byte `'\e'` (0x1B). -/
def escChar : Char := Char.ofNat 27

/-- C-string read: `std::string(char *p)` copies bytes up to (excluding) the
first NUL.  Models `msg += std::string(&(buf[buf_start]))` in
`Logger::start` (server.cpp line 117). -/
def cstr (l : List Char) : List Char := l.takeWhile (fun c => c ≠ nulChar)

/-- The read buffer contents after `read` put `chunk` at its start: the buffer
was zeroed (`char buf[LINE_MAX] = {0}` initially, `memset(buf, 0, LINE_MAX)`
after each chunk), so the bytes past the chunk are NUL. -/
def padBuf (chunk : List Char) : List Char :=
  chunk ++ List.replicate (LINE_MAX - chunk.length) nulChar

/-- Numeric value of a run of ASCII digits (most significant first). -/
def digitsVal (l : List Char) : Nat :=
  l.foldl (fun acc c => 10 * acc + (c.toNat - 48)) 0

/-- C `isspace` for the default locale, as used by `strtol` to skip leading
whitespace. -/
def isCSpace (c : Char) : Bool :=
  c = ' ' ∨ c = '\t' ∨ c = '\n' ∨ Char.ofNat 11 = c ∨ Char.ofNat 12 = c ∨ c = '\r'

/-- Model of `strtol(s, NULL, 10)`: skip whitespace, optional sign, then the longest
run of decimal digits; 0 when no digit follows.  (Overflow is not modelled:
the asserts in the source reject any value outside `[0, 3]`, and an
overflowing input fails them just as its mathematical value would.) -/
def strtol10 (s : List Char) : Int :=
  let s1 := s.dropWhile isCSpace
  match s1 with
  | '-' :: rest => -(digitsVal (rest.takeWhile Char.isDigit) : Int)
  | '+' :: rest => (digitsVal (rest.takeWhile Char.isDigit) : Int)
  | _ => (digitsVal (s1.takeWhile Char.isDigit) : Int)

/-- Value of `EXIT_FAILURE` from `<cstdlib>`. -/
def EXIT_FAILURE : Nat := 1

/-- Outcome of processing one accepted connection in `Logger::start`
(server.cpp lines 88-122). -/
inductive ConnResult where
  /-- The path `printf("invalid message"); exit(EXIT_FAILURE)`: the process
  exits with the given status (lines 102-105). -/
  | fatalExit (code : Nat) : ConnResult
  /-- A failed `assert` (lines 109-110): `abort()`, abnormal nonzero
  termination. -/
  | fatalAssert : ConnResult
  /-- The call `pushQueue(std::make_pair(level, msg))` ran (line 122): a
  record with this severity and message byte string was enqueued. -/
  | record (level : Nat) (msg : List Char) : ConnResult
deriving DecidableEq

/-- Result of the `first_read` block of `Logger::start` (lines 99-115) on the
first chunk. -/
inductive FirstResult where
  | fatalExit (code : Nat) : FirstResult
  | fatalAssert : FirstResult
  /-- Severity parsed, plus the message bytes contributed by this chunk
  (the C-string starting right after the `:`). -/
  | ok (level : Nat) (msgStart : List Char) : FirstResult
deriving DecidableEq

/-- The `first_read` block of `Logger::start`: scan the (zero-padded) buffer
for the first `':'`; if the scan reaches `LINE_MAX`, print and
`exit(EXIT_FAILURE)`; otherwise overwrite the `':'` with NUL, `strtol` the
prefix, `assert(l >= 0 && l <= 3)`, and continue after the `':'`. -/
def readFirst (chunk : List Char) : FirstResult :=
  match (padBuf chunk).findIdx? (fun c => c = ':') with
  | none => .fatalExit EXIT_FAILURE
  | some i =>
    let l := strtol10 ((padBuf chunk).take i)
    if 0 ≤ l ∧ l ≤ 3 then
      .ok l.toNat (cstr ((padBuf chunk).drop (i + 1)))
    else
      .fatalAssert

/-- One accepted connection in `Logger::start`, lines 88-122: `chunks` is the
list of byte blocks returned by successive `read` calls before the peer
closed.  When the loop body never runs (`chunks = []`, the peer closed after
zero bytes) the uninitialized stack variable `uint8_t level` — modelled by the
parameter `junk` — is pushed with the empty message.  Otherwise the first
chunk is parsed by `readFirst` and every chunk contributes its C-string
(bytes up to the first NUL) to the accumulated message. -/
def frameReader (junk : Nat) (chunks : List (List Char)) : ConnResult :=
  match chunks with
  | [] => .record junk []
  | c :: rest =>
    match readFirst c with
    | .fatalExit code => .fatalExit code
    | .fatalAssert => .fatalAssert
    | .ok level msgStart =>
      .record level (msgStart ++ (rest.map (fun ch => cstr (padBuf ch))).flatten)

/-- A `(severity, message)` record, `std::pair<uint8_t, std::string>`. -/
abbrev LogRec := Nat × List Char

/-- Model of `Logger::pushQueue` (server.cpp lines 144-150): under the mutex,
insert at the tail of `logqueue`. -/
def pushQueue (q : List LogRec) (r : LogRec) : List LogRec := q ++ [r]

/-- Model of `Logger::popQueue` (server.cpp lines 156-165): under the mutex,
read `front()` and `pop()` it.  Calling `front` on an empty queue is
undefined (`none`); the committer only calls it after seeing the queue
non-empty. -/
def popQueue (q : List LogRec) : Option (LogRec × List LogRec) :=
  match q with
  | [] => none
  | r :: t => some (r, t)

/-- One atomic operation on the handoff queue.  The mutex in
`pushQueue`/`popQueue` serializes all accesses, so any concurrent execution is
some sequence of these operations. -/
inductive QOp where
  | push (r : LogRec) : QOp
  | pop : QOp

/-- Queue-history state: the current queue plus the sequences of records
pushed and popped so far. -/
structure QState where
  queue : List LogRec
  pushed : List LogRec
  popped : List LogRec
deriving DecidableEq

/-- Effect of one atomic queue operation.  A `pop` against an empty queue
does nothing: the committer (`Logger::processQueue`) spins until
`logqueue.empty()` is false before calling `popQueue`. -/
def qStep (st : QState) (op : QOp) : QState :=
  match op with
  | .push r => ⟨pushQueue st.queue r, st.pushed ++ [r], st.popped⟩
  | .pop =>
    match popQueue st.queue with
    | none => st
    | some (r, t) => ⟨t, st.pushed, st.popped ++ [r]⟩

/-- Run a sequence of atomic queue operations from the empty queue. -/
def runQueue (ops : List QOp) : QState := ops.foldl qStep ⟨[], [], []⟩

/-- The four severities of `loglevel.hpp`. -/
def HEADER : Nat := 0
/-- Severity `INFO = 1`. -/
def INFO : Nat := 1
/-- Severity `DEBUG = 2`. -/
def DEBUG : Nat := 2
/-- Severity `ERROR = 3`. -/
def ERROR : Nat := 3

/-- The ANSI reset sequence `"\e[0m"`. -/
def resetSeq : List Char := escChar :: String.toList "[0m"
/-- The ANSI cyan sequence `"\e[0;36m"`. -/
def cyanSeq : List Char := escChar :: String.toList "[0;36m"
/-- The ANSI yellow sequence `"\e[0;93m"`. -/
def yellowSeq : List Char := escChar :: String.toList "[0;93m"
/-- The ANSI red sequence `"\e[0;91m"`. -/
def redSeq : List Char := escChar :: String.toList "[0;91m"

/-- The `apply` lambda in `Logger::commitLog` (server.cpp lines 168-170):
`message = colour + message + "\e[0m"`. -/
def applyColour (colour message : List Char) : List Char :=
  colour ++ message ++ resetSeq

/-- The `switch (level)` of `Logger::commitLog` (server.cpp lines 172-204).
`interactive` is `file == STDOUT`.  The `default` case prints and
`exit(EXIT_FAILURE)`: `none`. -/
def commitFormat (level : Nat) (message : List Char) (interactive : Bool) :
    Option (List Char) :=
  if level = HEADER then
    some (if interactive then applyColour resetSeq message else message)
  else if level = INFO then
    let m := String.toList "Info: " ++ message
    some (if interactive then applyColour cyanSeq m else m)
  else if level = DEBUG then
    let m := String.toList "Debug: " ++ message
    some (if interactive then applyColour yellowSeq m else m)
  else if level = ERROR then
    let m := String.toList "Error: " ++ message
    some (if interactive then applyColour redSeq m else m)
  else
    none

/-- The state of `message` in `Logger::commitLog` right after the severity
switch and the unconditional extra `message += "\e[0m"` applied for an
interactive sink (server.cpp lines 206-208), just before the newline check. -/
def commitPre (level : Nat) (message : List Char) (interactive : Bool) :
    Option (List Char) :=
  match commitFormat level message interactive with
  | none => none
  | some m0 => some (if interactive then m0 ++ resetSeq else m0)

/-- Model of `Logger::commitLog` (server.cpp lines 167-215): the severity
switch, the unconditional extra reset for an interactive sink, then
`if (message[message.size() - 1] != '\n') message += "\n"` (lines 210-212),
then the single `write` of the bytes; the returned value is the byte string
written.  Indexing `message[message.size() - 1]` on an empty string is
undefined behaviour in the C++ and is modelled as `none`. -/
def commitLog (level : Nat) (message : List Char) (interactive : Bool) :
    Option (List Char) :=
  match commitPre level message interactive with
  | none => none
  | some m1 =>
    match m1.getLast? with
    | none => none
    | some c => some (if c ≠ '\n' then m1 ++ ['\n'] else m1)

/-- The 79-dash divider line of the startup banner (server.cpp line 67). -/
def bannerDivider : List Char := List.replicate 79 '-'

/-- The banner string built in `Logger::Logger` (server.cpp lines 66-70): a
divider line, 34 spaces then `New Log`, and a trailing divider line, each
newline-terminated. -/
def bannerText : List Char :=
  bannerDivider ++ ['\n'] ++ (List.replicate 34 ' ' ++ String.toList "New Log")
    ++ ['\n'] ++ bannerDivider ++ ['\n']

/-- The synthetic startup record `std::make_pair(HEADER, header)` pushed by
the constructor (server.cpp line 71). -/
def bannerRecord : LogRec := (HEADER, bannerText)

/-- Queue contents established by `Logger::Logger` before the committer
thread is spawned (line 72) and before `start()` accepts any connection
(line 74): exactly the one synthetic banner record. -/
def initQueue : List LogRec := [bannerRecord]

/-- The full enqueue order of a service run: the constructor's banner push,
then the records of the accepted connections in acceptance order
(`Logger::start` pushes each connection's record before accepting the
next). -/
def enqueueTrace (accepted : List LogRec) : List LogRec :=
  initQueue ++ accepted

/-- The byte strings committed to the sink, in commit order: the committer
pops the FIFO queue one record at a time and runs `commitLog` on each, so the
commit order is the enqueue order. -/
def commitTrace (interactive : Bool) (accepted : List LogRec) :
    List (Option (List Char)) :=
  (enqueueTrace accepted).map (fun r => commitLog r.1 r.2 interactive)

/-- Decimal representation of a number, `std::to_string` on the value of a
`uint8_t`. -/
def natDecimal (n : Nat) : List Char := Nat.toDigits 10 n

/-- Model of `LogClient::format_log` (src/src/client.cpp lines 10-12):
`log = std::to_string(level) + ":" + log`. -/
def format_log (level : Nat) (log : List Char) : List Char :=
  natDecimal level ++ [':'] ++ log

/-- The bytes transmitted by `LogClient::writeLog` once it reaches the write
(src/src/client.cpp line 26): `write(fd, log.c_str(), log.size() + 1)` sends
the formatted string's `size()` bytes plus the terminating NUL that `c_str()`
guarantees. -/
def writeLogBytes (level : Nat) (log : List Char) : List Char :=
  format_log level log ++ [nulChar]

/-! ## Helper lemmas -/

/-- C-string reading ignores a zero-filled tail: the copy stops at the first
NUL, which is at latest the start of the padding. -/
theorem cstr_append_replicate (a : List Char) (k : Nat) :
    cstr (a ++ List.replicate k nulChar) = cstr a := by
  unfold cstr
  rw [List.takeWhile_append]
  split
  · next h =>
    have hpfx : a.takeWhile (fun c => c ≠ nulChar) <+: a := List.takeWhile_prefix _
    have heq : a.takeWhile (fun c => c ≠ nulChar) = a := hpfx.eq_of_length h
    have hz : (List.replicate k nulChar).takeWhile (fun c => c ≠ nulChar) = [] := by
      cases k with
      | zero => rfl
      | succ n => simp [List.replicate_succ, List.takeWhile_cons]
    rw [hz, List.append_nil, heq]
  · rfl

/-- Reading the C-string of the whole (zero-padded) buffer holding a chunk
gives the chunk's bytes up to its first NUL. -/
theorem cstr_padBuf (c : List Char) : cstr (padBuf c) = cstr c :=
  cstr_append_replicate c (LINE_MAX - c.length)

/-- Reading the C-string of the buffer from any offset gives the chunk's
bytes from that offset up to the first NUL. -/
theorem cstr_padBuf_drop (chunk : List Char) (i : Nat) :
    cstr ((padBuf chunk).drop i) = cstr (chunk.drop i) := by
  unfold padBuf
  rw [List.drop_append_eq_append_drop, List.drop_replicate]
  exact cstr_append_replicate _ _

/-- The delimiter scan over the buffer finds the first colon of the chunk:
the zero padding cannot contain a colon. -/
theorem padBuf_findIdx_some {chunk : List Char} {i : Nat}
    (h : chunk.findIdx? (fun c => c = ':') = some i) :
    (padBuf chunk).findIdx? (fun c => c = ':') = some i := by
  unfold padBuf
  rw [List.findIdx?_append, h]
  rfl

/-- When the chunk holds no colon, the scan over the whole buffer fails: the
zero padding holds none either. -/
theorem padBuf_findIdx_none {chunk : List Char}
    (h : chunk.findIdx? (fun c => c = ':') = none) :
    (padBuf chunk).findIdx? (fun c => c = ':') = none := by
  unfold padBuf
  rw [List.findIdx?_append, h]
  have hz : (List.replicate (LINE_MAX - chunk.length) nulChar).findIdx?
      (fun c => c = ':') = none := by
    rw [List.findIdx?_eq_none_iff]
    intro x hx
    rw [List.eq_of_mem_replicate hx]
    decide
  rw [hz]
  rfl

/-- Taking the severity prefix from the buffer is taking it from the chunk,
as long as the index lies within the chunk. -/
theorem padBuf_take {chunk : List Char} {i : Nat} (h : i ≤ chunk.length) :
    (padBuf chunk).take i = chunk.take i := by
  unfold padBuf
  rw [List.take_append_eq_append_take, Nat.sub_eq_zero_of_le h, List.take_zero,
    List.append_nil]

/-- Successful first-chunk parse, characterized at the chunk level: the first
colon of the chunk at index `i`, and the severity prefix in range. -/
theorem readFirst_ok {chunk : List Char} {i : Nat}
    (hfind : chunk.findIdx? (fun c => c = ':') = some i)
    (h0 : 0 ≤ strtol10 (chunk.take i)) (h3 : strtol10 (chunk.take i) ≤ 3) :
    readFirst chunk =
      .ok (strtol10 (chunk.take i)).toNat (cstr (chunk.drop (i + 1))) := by
  have hi : i < chunk.length := (List.findIdx?_eq_some_iff_getElem.1 hfind).1
  unfold readFirst
  rw [padBuf_findIdx_some hfind]
  simp only [padBuf_take (Nat.le_of_lt hi)]
  rw [if_pos ⟨h0, h3⟩, cstr_padBuf_drop]

/-- First-chunk parse with an out-of-range severity prefix: the `assert`
fails. -/
theorem readFirst_assert {chunk : List Char} {i : Nat}
    (hfind : chunk.findIdx? (fun c => c = ':') = some i)
    (hbad : strtol10 (chunk.take i) < 0 ∨ 3 < strtol10 (chunk.take i)) :
    readFirst chunk = .fatalAssert := by
  have hi : i < chunk.length := (List.findIdx?_eq_some_iff_getElem.1 hfind).1
  unfold readFirst
  rw [padBuf_findIdx_some hfind]
  simp only [padBuf_take (Nat.le_of_lt hi)]
  rw [if_neg]
  rintro ⟨h0, h3⟩
  rcases hbad with h | h
  · exact absurd h0 (Int.not_le.2 h)
  · exact absurd h3 (Int.not_le.2 h)

/-- First-chunk parse with no colon anywhere in the chunk: the scan runs to
the end of the buffer and the service exits. -/
theorem readFirst_noColon {chunk : List Char} (h : ':' ∉ chunk) :
    readFirst chunk = .fatalExit EXIT_FAILURE := by
  have hnone : chunk.findIdx? (fun c => c = ':') = none := by
    rw [List.findIdx?_eq_none_iff]
    intro x hx
    have hne : x ≠ ':' := fun heq => h (heq ▸ hx)
    simpa using hne
  unfold readFirst
  rw [padBuf_findIdx_none hnone]

/-- Any successfully parsed severity passed the `assert(l >= 0 && l <= 3)`,
so it is at most 3. -/
theorem readFirst_level_le {c : List Char} {level : Nat} {m : List Char}
    (h : readFirst c = .ok level m) : level ≤ 3 := by
  unfold readFirst at h
  cases hf : (padBuf c).findIdx? (fun x => x = ':') with
  | none => rw [hf] at h; exact absurd h (by simp)
  | some i =>
    rw [hf] at h
    dsimp only at h
    by_cases hc : 0 ≤ strtol10 ((padBuf c).take i) ∧ strtol10 ((padBuf c).take i) ≤ 3
    · rw [if_pos hc] at h
      cases h
      exact Int.toNat_le.mpr (by exact_mod_cast hc.2)
    · rw [if_neg hc] at h
      exact absurd h (by simp)

/-- The queue-history invariant: starting from a state where every pushed
record is either already popped (in order) or still queued (in order), every
sequence of atomic operations preserves that decomposition. -/
theorem runQueue_inv (ops : List QOp) (st : QState)
    (h : st.pushed = st.popped ++ st.queue) :
    (ops.foldl qStep st).pushed =
      (ops.foldl qStep st).popped ++ (ops.foldl qStep st).queue := by
  induction ops generalizing st with
  | nil => simpa using h
  | cons op rest ih =>
    rw [List.foldl_cons]
    apply ih
    cases op with
    | push r => simp [qStep, pushQueue, h]
    | pop =>
      cases hq : st.queue with
      | nil => simpa [qStep, popQueue, hq] using h
      | cons r t =>
        simp only [qStep, popQueue, hq]
        rw [h, hq]
        simp

/-! ## Claims -/

/-- C1: the claim says a zero-byte connection yields a parse failure with no
record enqueued.  The code instead falls out of the read loop without ever
parsing and unconditionally runs `pushQueue(std::make_pair(level, msg))`
(server.cpp line 122): whatever value `junk` the uninitialized `uint8_t
level` happens to hold, a record with that severity and an empty message is
enqueued for the connection. -/
theorem c1_zero_byte_pushes_record (junk : Nat) :
    frameReader junk [] = ConnResult.record junk [] := rfl

/-- C2 counterexample: the first chunk `"abc:msg"` has a non-numeric severity
prefix (not one digit of it is a digit), yet processing is not fatal: `strtol`
returns 0 on no-conversion, the asserts pass, and a record with severity 0
(HEADER) and message `"msg"` is enqueued. -/
theorem c2_counterexample :
    ((String.toList "abc").all (fun c => !c.isDigit)) = true ∧
    frameReader 0 [String.toList "abc:msg"] =
      ConnResult.record HEADER (String.toList "msg") := by
  constructor
  · decide
  · decide

/-- C2 (amended): when the bytes before the first `:` of the first chunk
decode under C `strtol` semantics to a value outside `{0,1,2,3}` (for
example the out-of-range digit `"9"`), the `assert(l >= 0 && l <= 3)` fails
— fatal to the whole service — and no record for that connection is ever
enqueued.  (A non-numeric prefix instead decodes to 0 and is accepted as
severity HEADER.) -/
theorem c2_out_of_range_fatal (junk : Nat) (chunk : List Char)
    (rest : List (List Char)) (i : Nat)
    (hfind : chunk.findIdx? (fun c => c = ':') = some i)
    (hbad : strtol10 (chunk.take i) < 0 ∨ 3 < strtol10 (chunk.take i)) :
    frameReader junk (chunk :: rest) = ConnResult.fatalAssert ∧
    ∀ l m, frameReader junk (chunk :: rest) ≠ ConnResult.record l m := by
  have hr : readFirst chunk = .fatalAssert := readFirst_assert hfind hbad
  constructor
  · simp only [frameReader, hr]
  · intro l m
    simp only [frameReader, hr]
    exact fun heq => ConnResult.noConfusion heq

/-- C2 witness: the chunk `"9:test"` of the spec's own example. -/
theorem c2_witness :
    frameReader 0 [String.toList "9:test"] = ConnResult.fatalAssert :=
  (c2_out_of_range_fatal 0 (String.toList "9:test") [] 1 (by decide)
    (Or.inr (by decide))).1

/-- C3 counterexample: a client sending `"0:hello"` gets a record with
severity 0 — HEADER — successfully parsed and enqueued: the wire digit 0
passes `assert(l >= 0 && l <= 3)`, so HEADER is not reserved to the
service-synthesized banner. -/
theorem c3_counterexample :
    frameReader 0 [String.toList "0:hello"] =
      ConnResult.record HEADER (String.toList "hello") := by decide

/-- C3 (amended): every record successfully parsed from a client connection
has severity in `{0,1,2,3}` — the digits 1-3 of INFO/DEBUG/ERROR and also
the digit 0 of HEADER, which the frame reader accepts from clients. -/
theorem c3_parsed_level_le (junk : Nat) (c : List Char)
    (rest : List (List Char)) (lvl : Nat) (msg : List Char)
    (h : frameReader junk (c :: rest) = ConnResult.record lvl msg) :
    lvl ≤ 3 := by
  cases hr : readFirst c with
  | fatalExit code =>
    simp only [frameReader, hr] at h
    exact ConnResult.noConfusion h
  | fatalAssert =>
    simp only [frameReader, hr] at h
    exact ConnResult.noConfusion h
  | ok level m0 =>
    have hle := readFirst_level_le hr
    simp only [frameReader, hr] at h
    cases h
    exact hle

/-- C3 witness: parsing `"2:x"` yields severity DEBUG, which is at most 3. -/
theorem c3_witness :
    frameReader 0 [String.toList "2:x"] = ConnResult.record DEBUG ['x'] ∧
    DEBUG ≤ 3 :=
  ⟨by decide, c3_parsed_level_le 0 (String.toList "2:x") [] DEBUG ['x'] (by decide)⟩

/-- C4: the handoff queue is strict FIFO.  `popQueue` removes and returns the
head record, and over every sequence of interleaved atomic push and pop
operations the records pushed so far are exactly the records popped so far
followed by the records still queued, in order — so pops return pushes in
push order, no record is lost, and no record is returned by two pops. -/
theorem c4_fifo :
    (∀ r t, popQueue (r :: t) = some (r, t)) ∧
    (∀ ops : List QOp,
      (runQueue ops).pushed = (runQueue ops).popped ++ (runQueue ops).queue) :=
  ⟨fun _ _ => rfl, fun ops => runQueue_inv ops ⟨[], [], []⟩ rfl⟩

/-- C5 counterexample: committing severity INFO, message `"hello"` to an
interactive sink does not write the text wrapped in the cyan escape and one
reset: the reset sequence is emitted twice (once by the colour wrapper,
once by the unconditional `message += "\e[0m"` of server.cpp lines
206-208). -/
theorem c5_counterexample :
    commitLog INFO (String.toList "hello") true ≠
      some (cyanSeq ++ String.toList "Info: hello" ++ resetSeq ++ ['\n']) ∧
    commitLog INFO (String.toList "hello") true =
      some (cyanSeq ++ String.toList "Info: hello" ++ resetSeq ++ resetSeq ++ ['\n']) := by
  constructor
  · decide
  · decide

/-- C5 (amended): committing severity INFO, message `"hello"` to a file sink
writes exactly `"Info: hello\n"`; to an interactive sink it writes that text
wrapped in the cyan escape sequence and the reset sequence written twice,
followed by the newline. -/
theorem c5_roundtrip :
    commitLog INFO (String.toList "hello") false =
      some (String.toList "Info: hello\n") ∧
    commitLog INFO (String.toList "hello") true =
      some (cyanSeq ++ String.toList "Info: hello" ++ resetSeq ++ resetSeq ++ ['\n']) := by
  constructor
  · decide
  · decide

/-- C6 counterexample: committing severity INFO with the message `"hi\n\n"`
to a file sink writes `"Info: hi\n\n"`, whose last two bytes are both
newlines — the committed output does not end in exactly one terminating
newline. -/
theorem c6_counterexample :
    commitLog INFO (String.toList "hi\n\n") false =
      some (String.toList "Info: hi\n\n") ∧
    (String.toList "Info: hi\n\n").getLast? = some '\n' ∧
    (String.toList "Info: hi\n\n").dropLast.getLast? = some '\n' := by
  refine ⟨by decide, by decide, by decide⟩

/-- C6 (amended): in the committer of src/src/server.cpp, every committed
output ends in at least one newline: a newline is appended exactly when the
formatted message (after the severity switch and the interactive reset) does
not already end in `'\n'`, and a message already ending in `'\n'` is passed
through unchanged — so it is not given a second trailing newline, though a
message that already ends in several newlines keeps all of them. -/
theorem c6_newline_normalization (level : Nat) (message : List Char)
    (interactive : Bool) (m1 : List Char)
    (hpre : commitPre level message interactive = some m1)
    (hne : m1 ≠ []) :
    (∃ out, commitLog level message interactive = some out ∧
      out.getLast? = some '\n') ∧
    (m1.getLast? = some '\n' → commitLog level message interactive = some m1) ∧
    (m1.getLast? ≠ some '\n' →
      commitLog level message interactive = some (m1 ++ ['\n'])) := by
  have hcl : commitLog level message interactive =
      match m1.getLast? with
      | none => none
      | some c => some (if c ≠ '\n' then m1 ++ ['\n'] else m1) := by
    unfold commitLog
    rw [hpre]
  obtain ⟨c, hc⟩ := Option.isSome_iff_exists.mp (List.getLast?_isSome.mpr hne)
  rw [hc] at hcl
  dsimp only at hcl
  by_cases hnl : c = '\n'
  · subst hnl
    rw [if_neg (fun hh => hh rfl)] at hcl
    exact ⟨⟨m1, hcl, hc⟩, fun _ => hcl, fun hcontra => absurd hc hcontra⟩
  · rw [if_pos hnl] at hcl
    refine ⟨⟨m1 ++ ['\n'], hcl, List.getLast?_concat _⟩, ?_, fun _ => hcl⟩
    intro heq
    rw [heq] at hc
    cases hc
    exact absurd rfl hnl

/-- C6 witness: a message already ending in a newline, committed to a file
sink, is written without a second trailing newline. -/
theorem c6_witness :
    commitLog INFO (String.toList "hello\n") false =
      some (String.toList "Info: hello\n") := by
  have h := c6_newline_normalization INFO (String.toList "hello\n") false
    (String.toList "Info: hello\n") (by decide) (by decide)
  exact h.2.1 (by decide)

/-- C7 counterexample: the first chunk `1:a`, NUL, `b` has a `:` at index 1,
and the claim says the record's message is all bytes after it — `a`, NUL,
`b`.  The code instead copies with C-string semantics
(`std::string(&buf[buf_start])`), stopping at the NUL: the message is just
`"a"`, and the bytes from the NUL onward are dropped. -/
theorem c7_counterexample :
    frameReader 0 [['1', ':', 'a', nulChar, 'b']] =
      ConnResult.record INFO ['a'] ∧
    frameReader 0 [['1', ':', 'a', nulChar, 'b']] ≠
      ConnResult.record INFO ['a', nulChar, 'b'] := by
  constructor
  · decide
  · decide

/-- C7 (amended): for a connection whose first chunk has its first `:` at
index `i` and a severity prefix decoding in range, the record's message is
the bytes of the first chunk after the `:` up to the chunk's first NUL,
concatenated with each subsequent chunk's bytes up to that chunk's first
NUL, in order; from the first NUL byte onward each chunk's bytes are
dropped. -/
theorem c7_message_assembly (junk : Nat) (chunk : List Char)
    (rest : List (List Char)) (i : Nat)
    (hfind : chunk.findIdx? (fun c => c = ':') = some i)
    (h0 : 0 ≤ strtol10 (chunk.take i)) (h3 : strtol10 (chunk.take i) ≤ 3) :
    frameReader junk (chunk :: rest) =
      ConnResult.record (strtol10 (chunk.take i)).toNat
        (cstr (chunk.drop (i + 1)) ++ (rest.map cstr).flatten) := by
  have hr := readFirst_ok hfind h0 h3
  simp only [frameReader, hr, cstr_padBuf]

/-- C7 witness: the message `"hello"` split as `"1:he"` then `"llo"` across
two reads is reassembled in order. -/
theorem c7_witness :
    frameReader 0 [String.toList "1:he", String.toList "llo"] =
      ConnResult.record 1 (String.toList "hello") := by
  have h := c7_message_assembly 0 (String.toList "1:he") [String.toList "llo"] 1
    (by decide) (by decide) (by decide)
  rw [h]
  decide

set_option maxRecDepth 8192 in
/-- C8: the synthetic HEADER banner record is enqueued exactly once, by the
constructor, ahead of every record of every accepted connection, so whatever
the accepted records are, the first byte string committed to the sink is the
formatted banner — on a file sink, exactly the three-line
divider/`New Log`/divider text. -/
theorem c8_banner_first (accepted : List LogRec) (interactive : Bool) :
    enqueueTrace accepted = bannerRecord :: accepted ∧
    (commitTrace interactive accepted).head? =
      some (commitLog HEADER bannerText interactive) ∧
    commitLog HEADER bannerText false = some bannerText := by
  refine ⟨rfl, rfl, by decide⟩

/-- C9: when the first chunk of a connection contains no `:` byte, the scan
runs past the chunk into the zeroed remainder of the buffer, reaches
`LINE_MAX`, and the service prints `invalid message` and exits with the
nonzero status `EXIT_FAILURE`; no record for that connection is enqueued. -/
theorem c9_no_colon_fatal (junk : Nat) (chunk : List Char)
    (rest : List (List Char)) (_hlen : chunk.length < LINE_MAX)
    (hcolon : ':' ∉ chunk) :
    frameReader junk (chunk :: rest) = ConnResult.fatalExit EXIT_FAILURE ∧
    EXIT_FAILURE ≠ 0 ∧
    ∀ l m, frameReader junk (chunk :: rest) ≠ ConnResult.record l m := by
  have hr := readFirst_noColon hcolon
  refine ⟨?_, by decide, ?_⟩
  · simp only [frameReader, hr]
  · intro l m
    simp only [frameReader, hr]
    exact fun heq => ConnResult.noConfusion heq

/-- C9 witness: a first chunk with no delimiter aborts the service with
`EXIT_FAILURE`. -/
theorem c9_witness :
    frameReader 0 [String.toList "invalid"] = ConnResult.fatalExit EXIT_FAILURE :=
  (c9_no_colon_fatal 0 (String.toList "invalid") [] (by decide) (by decide)).1

/-- C10: the bytes `LogClient::writeLog` transmits are the decimal
representation of the level, then `:`, then the message bytes, then exactly
one trailing NUL; the write sends the formatted string's size plus one
bytes, and the final byte — and only the part after the message — is the
NUL, which is not part of the logical message. -/
theorem c10_wire_format (level : Nat) (log : List Char) :
    writeLogBytes level log = natDecimal level ++ [':'] ++ log ++ [nulChar] ∧
    (writeLogBytes level log).length = (format_log level log).length + 1 ∧
    (writeLogBytes level log).dropLast = format_log level log ∧
    (writeLogBytes level log).getLast? = some nulChar := by
  refine ⟨?_, ?_, ?_, ?_⟩
  · simp [writeLogBytes, format_log]
  · simp [writeLogBytes]
  · exact List.dropLast_concat
  · exact List.getLast?_concat _
